import Mathlib

/-!
Verification of the spoticus Slack bot command core.

The development shallowly embeds the command registry, the message
dispatcher (internal/slack/handlers, HandleMessageEvent), the launch
handler (internal/slack/commands/launch.go, HandleLaunch) together with
its historical variant that issues a control-plane probe before
validation, and the list handler (HandleList).

Modelling conventions:
- Go strings are Lean String values; tokenization and lower-casing are
  reimplemented over the character list because the Go stdlib functions
  strings.Fields, strings.TrimSpace and strings.ToLower are external
  library code: they are modelled character by character (ASCII folding
  for ToLower, which is exact on every token the program compares).
- Go maps become association lists with List.lookup; lookup in a Go map
  is deterministic, but iteration with range is randomized, so every
  function that ranges over a map takes the enumeration order as an
  input, constrained to a permutation of the entries where needed.
- Slack posts and log lines are collected into an Effects value instead
  of being sent; api.PostMessage failures are logged and ignored by the
  source, so they do not change which message was composed.
- The kubernetes client construction and the two control-plane list
  queries are external calls; their outcomes are inputs in an Env value.
-/

namespace Spoticus

/-- Character-level model of Go strings.ToLower restricted to ASCII case
folding: every character is mapped through Char.toLower. All keywords and
catalog tokens compared by the program are ASCII, where this agrees with
the Go function. -/
def toLowerStr (s : String) : String := ⟨s.data.map Char.toLower⟩

/-- Accumulator pass underlying the model of Go strings.Fields: cur holds
the characters of the word in progress, reversed. Runs of whitespace
separate words and produce no empty fields. -/
def fieldsAux (cur : List Char) : List Char → List String
  | [] => if cur.isEmpty then [] else [String.mk cur.reverse]
  | c :: cs =>
    if c.isWhitespace then
      if cur.isEmpty then fieldsAux [] cs
      else String.mk cur.reverse :: fieldsAux [] cs
    else fieldsAux (c :: cur) cs

/-- Model of Go strings.Fields: split around every maximal run of
whitespace, discarding empty fields. -/
def strFields (s : String) : List String := fieldsAux [] s.data

/-- Model of Go strings.TrimSpace: drop leading and trailing whitespace
characters. -/
def trimSpace (s : String) : String :=
  ⟨((s.data.dropWhile Char.isWhitespace).reverse.dropWhile Char.isWhitespace).reverse⟩

/-- SizeSpec from launch.go: resource labels for a cluster size. -/
structure SizeSpec where
  CPU : String
  RAM : String
  deriving DecidableEq

/-- supportedClusterTypes from launch.go: the map keys, used only for
membership tests. -/
def supportedClusterTypes : List String := ["k8s", "openshift"]

/-- supportedSizes from launch.go as an association list in the order of
the Go map literal. Go map lookup is order-independent; functions that
iterate the map take their own order argument. -/
def supportedSizes : List (String × SizeSpec) :=
  [("medium", ⟨"8 CPUs", "32 GB RAM"⟩),
   ("large", ⟨"16 CPUs", "64 GB RAM"⟩),
   ("xlarge", ⟨"32 CPUs", "128 GB RAM"⟩)]

/-- isSupportedClusterType from launch.go: membership in the cluster type
set. The lower-casing happens at the call site, as in the source. -/
def isSupportedClusterType (t : String) : Bool := supportedClusterTypes.contains t

/-- launchUsage from launch.go, verbatim. -/
def launchUsage : String :=
  "📦 *Launch Command — Detailed Usage*\n\n" ++
  "This command provisions a new cluster using a specified platform and resource tier.\n\n" ++
  "🔧 *Syntax*:\n" ++
  "```\n" ++
  "launch <cluster_type> <size>\n" ++
  "```\n\n" ++
  "🧪 *Examples*:\n" ++
  "```\n" ++
  "launch k8s large\n" ++
  "launch openshift medium\n" ++
  "```\n\n" ++
  "🧱 *Supported Cluster Types*:\n" ++
  "• `k8s` — Standard upstream Kubernetes cluster\n" ++
  "• `openshift` — Red Hat OpenShift Container Platform\n" ++
  "_Only these values are accepted. Input is case-insensitive._\n\n" ++
  "📐 *Supported Sizes*:\n" ++
  "• `medium` — 8 CPUs / 32 GB RAM\n" ++
  "• `large` — 16 CPUs / 64 GB RAM\n" ++
  "• `xlarge` — 32 CPUs / 128 GB RAM\n\n" ++
  "💰 *⚡ Spot Instances (Cost Optimization)*:\n" ++
  "All clusters are provisioned using **cloud spot instances** for maximum cost-efficiency.\n"

/-- The bullet line formatSupportedSizes writes for one catalog entry. -/
def sizeLine (p : String × SizeSpec) : String :=
  "• `" ++ p.1 ++ "`: " ++ p.2.CPU ++ ", " ++ p.2.RAM ++ "\n"

/-- formatSupportedSizes from launch.go: one bullet line per catalog entry.
The Go code ranges over the supportedSizes map, whose iteration order is
unspecified and randomized, so the enumeration order is an explicit input;
an admissible order is any permutation of supportedSizes. -/
def formatSupportedSizes (order : List (String × SizeSpec)) : String :=
  String.join (order.map sizeLine)

/-- The missing-arguments reply of HandleLaunch: generic prefix plus the
full usage block. -/
def missingArgsMsg : String := "❌ Missing arguments.\n\n" ++ launchUsage

/-- The unsupported-cluster-type reply of HandleLaunch, naming the
offending (lower-cased) value. -/
def unsupportedTypeMsg (t : String) : String :=
  "❌ Unsupported cluster type: *" ++ t ++ "*\nSupported types: `k8s`, `openshift`"

/-- The invalid-size reply of HandleLaunch, naming the offending
(lower-cased) value and listing the catalog in the given iteration
order. -/
def invalidSizeMsg (order : List (String × SizeSpec)) (s : String) : String :=
  "❌ Invalid size: *" ++ s ++ "*\nValid sizes:\n" ++ formatSupportedSizes order

/-- The confirmation message of HandleLaunch embedding cluster type, size,
the sender mention, and the matched SizeSpec labels. -/
def launchConfirmMsg (t s user : String) (spec : SizeSpec) : String :=
  "🚀 Launching a *" ++ t ++ "* cluster of size *" ++ s ++ "* for <@" ++ user ++
  ">\n• CPU: " ++ spec.CPU ++ "\n• Memory: " ++ spec.RAM

/-- The fields of slackevents.MessageEvent that the program reads. -/
structure MessageEvent where
  botID : String
  text : String
  user : String
  channel : String
  deriving DecidableEq

/-- One outbound api.PostMessage call: target channel and message text. -/
structure SlackPost where
  channel : String
  text : String
  deriving DecidableEq

/-- Observable effects of a handler run: Slack posts in order, and log
lines in order. Post failures are logged and swallowed by the source, so
the composed message is recorded regardless. -/
structure Effects where
  posts : List SlackPost
  logs : List String
  deriving DecidableEq

/-- respondError from launch.go: posts the error text to the channel. -/
def respondError (channel text : String) : List SlackPost := [⟨channel, text⟩]

/-- The log line of the HandleLaunch success path. -/
def launchLog (user t s : String) : String :=
  "Launching cluster: user=" ++ user ++ " type=" ++ t ++ " size=" ++ s

/-- Handler identities stored in the registry; the dispatcher invokes the
function a tag denotes through runHandler. -/
inductive HandlerTag where
  | launch
  | list
  | help
  deriving DecidableEq

/-- Command from internal/slack/handlers: help metadata and handler. -/
structure Command where
  Description : String
  Usage : String
  Handler : HandlerTag
  deriving DecidableEq

/-- The "launch" Command of the commandRegistry map literal. -/
def launchCommand : Command :=
  ⟨"Launch a cluster with specified type and size.",
   "`launch <cluster_type> <size>`\nExample: `launch kubernetes large`",
   HandlerTag.launch⟩

/-- The "list" Command of the commandRegistry map literal. -/
def listCommand : Command :=
  ⟨"List all mapt clusters.", "`list`", HandlerTag.list⟩

/-- The commandRegistry map literal: the entries present before init()
runs ("launch" and "list"). -/
def baseRegistry : List (String × Command) :=
  [("launch", launchCommand), ("list", listCommand)]

/-- The "help" Command registered by init(). -/
def helpCommand : Command :=
  ⟨"Show available commands and usage.", "`help`", HandlerTag.help⟩

/-- State-passing embedding of the init() routine of the handlers package:
it unconditionally inserts the "help" entry into the registry map and
performs no other action; in particular it validates nothing and has no
failure outcome. The base map holds no "help" key, so insertion is
modelled as appending the entry. -/
def registryInit (base : List (String × Command)) : List (String × Command) :=
  base ++ [("help", helpCommand)]

/-- The command registry after startup: the map literal plus the entry
added by init(). No other code in the repository writes to the registry
variable, so it is a constant for the process lifetime. -/
def commandRegistry : List (String × Command) := registryInit baseRegistry

/-- The help message body built by handleHelp: header plus one block per
registry entry. The Go code ranges over the commandRegistry map, so the
enumeration order is an explicit input; an admissible order is any
permutation of commandRegistry. -/
def helpText (order : List (String × Command)) : String :=
  "📖 *Available commands:*\n" ++
  String.join (order.map fun p =>
    "\n• *" ++ p.1 ++ "* — " ++ p.2.Description ++ "\n  _Usage:_ " ++ p.2.Usage ++ "\n")

/-- Creation timestamp broken into calendar fields, as consumed by the
Go layout string 2006-01-02 15:04:05. -/
structure Timestamp where
  year : Nat
  month : Nat
  day : Nat
  hour : Nat
  minute : Nat
  second : Nat
  deriving DecidableEq

/-- Two-digit zero padding, as the Go layout tokens 01, 02, 15, 04, 05
render month, day, hour, minute and second. -/
def pad2 (n : Nat) : String := if n < 10 then "0" ++ Nat.repr n else Nat.repr n

/-- Four-digit zero padding, as the Go layout token 2006 renders the
year. -/
def pad4 (n : Nat) : String :=
  if n < 10 then "000" ++ Nat.repr n
  else if n < 100 then "00" ++ Nat.repr n
  else if n < 1000 then "0" ++ Nat.repr n
  else Nat.repr n

/-- Model of Go Time.Format with layout 2006-01-02 15:04:05, i.e.
YYYY-MM-DD HH:MM:SS with zero padding. -/
def formatTimestamp (t : Timestamp) : String :=
  pad4 t.year ++ "-" ++ pad2 t.month ++ "-" ++ pad2 t.day ++ " " ++
  pad2 t.hour ++ ":" ++ pad2 t.minute ++ ":" ++ pad2 t.second

/-- Projection of one control-plane resource item as HandleList reads it:
name, namespace and creation timestamp. -/
structure ClusterItem where
  name : String
  ns : String
  creationTimestamp : Timestamp
  deriving DecidableEq

/-- The entry block HandleList writes for a Kind (Kubernetes) cluster. -/
def kindEntry (c : ClusterItem) : String :=
  "🔸 *" ++ c.name ++ "* (Kubernetes)\n   • Namespace: " ++ c.ns ++
  "\n   • Created: " ++ formatTimestamp c.creationTimestamp ++ "\n"

/-- The entry block HandleList writes for an Openshift cluster. -/
def openshiftEntry (c : ClusterItem) : String :=
  "🔸 *" ++ c.name ++ "* (OpenShift)\n   • Namespace: " ++ c.ns ++
  "\n   • Created: " ++ formatTimestamp c.creationTimestamp ++ "\n"

/-- The header line of a nonempty listing, with its singular or plural
noun. -/
def listHeader (total : Nat) : String :=
  "📋 *Cluster List* (" ++ Nat.repr total ++ " cluster" ++
  (if total = 1 then "" else "s") ++ ")\n\n"

/-- The fixed empty-state reply of HandleList. -/
def emptyListMsg : String := "📋 *Cluster List*\n\nNo MAPT clusters currently running."

/-- The summary log line of a successful HandleList run. -/
def listSummaryLog (total kinds openshifts : Nat) (user : String) : String :=
  "Listed " ++ Nat.repr total ++ " MAPT clusters (" ++ Nat.repr kinds ++
  " kinds, " ++ Nat.repr openshifts ++ " openshifts) for user " ++ user

/-- The entry-emission loop of HandleList: writes each entry followed by a
separating newline whenever the running clusterIndex is below
totalClusters - 1. The Go source runs this as two consecutive loops over
the Kind items and then the Openshift items with one shared index, which
is the same traversal as one pass over the concatenated entry list. -/
def writeClusterEntries (total : Nat) : Nat → List String → String
  | _, [] => ""
  | idx, e :: rest =>
    e ++ (if idx < total - 1 then "\n" else "") ++ writeClusterEntries total (idx + 1) rest

/-- Outcomes of the external calls a handler run can make, provided as
inputs: the iteration orders of the two Go maps that are ranged over, the
result of GetKubernetesClient, and the results of the two control-plane
list queries (the items each returns, in the order the control plane
returned them, or the error string). -/
structure Env where
  sizesOrder : List (String × SizeSpec)
  registryOrder : List (String × Command)
  clientRes : Except String Unit
  kindsRes : Except String (List ClusterItem)
  osRes : Except String (List ClusterItem)

/-- HandleLaunch from internal/slack/commands/launch.go lines 80-114:
check argument count, then cluster type, then size, first failure wins;
on success compose the confirmation and log the launch. Argument access
beyond index 1 does not occur. -/
def HandleLaunch (env : Env) (event : MessageEvent) (args : List String) : Effects :=
  match args with
  | a0 :: a1 :: _ =>
    let clusterType := toLowerStr a0
    let size := toLowerStr a1
    if isSupportedClusterType clusterType then
      match supportedSizes.lookup size with
      | some spec =>
        ⟨[⟨event.channel, launchConfirmMsg clusterType size event.user spec⟩],
         [launchLog event.user clusterType size]⟩
      | none => ⟨respondError event.channel (invalidSizeMsg env.sizesOrder size), []⟩
    else ⟨respondError event.channel (unsupportedTypeMsg clusterType), []⟩
  | _ => ⟨respondError event.channel missingArgsMsg, []⟩

/-- The HandleLaunch variant of the commands package that issues a
best-effort control-plane read between the argument-count check and the
validation (part_002 lines 131-170). When GetKubernetesClient fails it
returns a nil client together with the error, the error is only logged,
and the very next statement dereferences the nil client
(client.CrClient), a Go runtime panic: the handler dies without posting,
modelled as the result none. When the client is available, the list call
result is discarded and its error only logged, and the remaining logic is
the literal duplicate of HandleLaunch; only the posts are modelled here
since the claim under study concerns the outbound reply. -/
def HandleLaunchProbe (env : Env) (event : MessageEvent) (args : List String) :
    Option (List SlackPost) :=
  match args with
  | a0 :: a1 :: _ =>
    match env.clientRes with
    | .error _ => none
    | .ok _ =>
      let clusterType := toLowerStr a0
      let size := toLowerStr a1
      if isSupportedClusterType clusterType then
        match supportedSizes.lookup size with
        | some spec => some [⟨event.channel, launchConfirmMsg clusterType size event.user spec⟩]
        | none => some (respondError event.channel (invalidSizeMsg env.sizesOrder size))
      else some (respondError event.channel (unsupportedTypeMsg clusterType))
  | _ => some (respondError event.channel missingArgsMsg)

/-- HandleList from the commands package (part_002 lines 172-265): client
construction and the two queries each abort with a single error post on
failure; on success, either the fixed empty-state message or the header
followed by the entry blocks, Kind items first then Openshift items, in
control-plane order. -/
def HandleList (env : Env) (event : MessageEvent) (_args : List String) : Effects :=
  match env.clientRes with
  | .error e =>
    ⟨respondError event.channel "❌ Failed to connect to Kubernetes cluster",
     ["Error getting kubernetes client: " ++ e]⟩
  | .ok _ =>
    match env.kindsRes with
    | .error e =>
      ⟨respondError event.channel "❌ Failed to retrieve cluster list",
       ["Error listing MAPT kind clusters: " ++ e]⟩
    | .ok kinds =>
      match env.osRes with
      | .error e =>
        ⟨respondError event.channel "❌ Failed to retrieve cluster list",
         ["Error listing MAPT openshift clusters: " ++ e]⟩
      | .ok openshifts =>
        let totalClusters := kinds.length + openshifts.length
        if totalClusters = 0 then
          ⟨[⟨event.channel, emptyListMsg⟩], []⟩
        else
          ⟨[⟨event.channel,
             listHeader totalClusters ++
               writeClusterEntries totalClusters 0
                 (kinds.map kindEntry ++ openshifts.map openshiftEntry)⟩],
           [listSummaryLog totalClusters kinds.length openshifts.length event.user]⟩

/-- handleHelp from the handlers package: one post with the synthesized
help listing, built from the registry iteration order. -/
def handleHelp (env : Env) (event : MessageEvent) (_args : List String) : Effects :=
  ⟨[⟨event.channel, helpText env.registryOrder⟩], []⟩

/-- Invocation of the handler a registry entry stores. -/
def runHandler (env : Env) (event : MessageEvent) (args : List String) :
    HandlerTag → Effects
  | .launch => HandleLaunch env event args
  | .list => HandleList env event args
  | .help => handleHelp env event args

/-- The diagnostic logged before a recognized handler runs. -/
def receivedLog (cmd user channel : String) : String :=
  "Received \x27" ++ cmd ++ "\x27 command from user " ++ user ++ " in channel " ++ channel

/-- The diagnostic logged when the keyword is not registered. -/
def unknownCmdLog (cmd user channel : String) : String :=
  "Unknown command \x27" ++ cmd ++ "\x27 from user " ++ user ++ " in channel " ++
  channel ++ ". Showing help."

/-- HandleMessageEvent from the handlers package lines 54-78: drop bot
messages, trim and tokenize, lower-case the first token, look it up in
the registry; on a hit log and run the handler on the remaining tokens,
otherwise log the unknown keyword and run handleHelp with nil args. -/
def HandleMessageEvent (env : Env) (event : MessageEvent) : Effects :=
  if event.botID ≠ "" then ⟨[], []⟩
  else
    match strFields (trimSpace event.text) with
    | [] => ⟨[], []⟩
    | w :: args =>
      let cmd := toLowerStr w
      match commandRegistry.lookup cmd with
      | none =>
        let e := handleHelp env event []
        ⟨e.posts, unknownCmdLog cmd event.user event.channel :: e.logs⟩
      | some command =>
        let e := runHandler env event args command.Handler
        ⟨e.posts, receivedLog cmd event.user event.channel :: e.logs⟩

/-- Specification-side shape of an entry listing: the entries joined with
one separating newline between consecutive entries and nothing after the
final one. Each entry block itself ends in a newline, so the separating
newline renders as exactly one blank line between entries. -/
def sepByBlank : List String → String
  | [] => ""
  | [e] => e
  | e :: rest => e ++ "\n" ++ sepByBlank rest

/-- A fixed event fixture from a human sender in channel C1. -/
def evC : MessageEvent := ⟨"", "", "U1", "C1"⟩

/-- An environment in which every external call succeeds and returns
nothing, with both map enumerations in literal order. -/
def env0 : Env := ⟨supportedSizes, commandRegistry, .ok (), .ok [], .ok []⟩

/-- An environment agreeing with env0 on the sizes enumeration order but
differing everywhere else. -/
def env0b : Env := ⟨supportedSizes, [], .error "x", .error "y", .error "z"⟩

/-- An environment whose sizes enumeration order is reversed, as one
admissible outcome of the randomized Go map iteration. -/
def envRevSizes : Env := ⟨supportedSizes.reverse, commandRegistry, .ok (), .ok [], .ok []⟩

/-- An environment in which GetKubernetesClient fails, the ordinary
situation when the bot runs outside a cluster without a kubeconfig. -/
def envNoClient : Env :=
  ⟨supportedSizes, commandRegistry, .error "unable to load in-cluster configuration",
   .ok [], .ok []⟩

/-- A Kind cluster item fixture. -/
def k1 : ClusterItem := ⟨"kind-a", "default", ⟨2024, 5, 3, 9, 2, 30⟩⟩

/-- An Openshift cluster item fixture. -/
def o1 : ClusterItem := ⟨"ocp-b", "prod", ⟨2023, 11, 20, 17, 45, 0⟩⟩

/-- An environment where both control-plane queries succeed with one item
each. -/
def envList : Env := ⟨supportedSizes, commandRegistry, .ok (), .ok [k1], .ok [o1]⟩

/-- An environment where the client and the Kind query succeed (with a
nonempty result) but the Openshift query fails. -/
def envOsErr : Env :=
  ⟨supportedSizes, commandRegistry, .ok (), .ok [k1], .error "connection refused"⟩

/-- Every entry of the concrete registry is found by lookup on its own
key: the registry keys are pairwise distinct. -/
theorem lookup_mem_registry :
    ∀ p ∈ commandRegistry, commandRegistry.lookup p.1 = some p.2 := by decide

/-- The entry-emission loop of HandleList produces exactly the separated
join of the entry blocks when the running index plus the number of
remaining entries equals the announced total. -/
theorem writeClusterEntries_eq_sepByBlank (es : List String) (idx total : Nat)
    (h : idx + es.length = total) (hne : es ≠ []) :
    writeClusterEntries total idx es = sepByBlank es := by
  induction es generalizing idx with
  | nil => cases hne rfl
  | cons e rest ih =>
    cases rest with
    | nil =>
      have hge : ¬ idx < total - 1 := by
        simp only [List.length_cons, List.length_nil] at h
        omega
      simp [writeClusterEntries, sepByBlank, hge, String.append_empty]
    | cons f t =>
      have hlt : idx < total - 1 := by
        simp only [List.length_cons] at h
        omega
      have h2 : (idx + 1) + (f :: t).length = total := by
        simp only [List.length_cons] at h ⊢
        omega
      have hrec := ih (idx + 1) h2 (by simp)
      calc writeClusterEntries total idx (e :: f :: t)
          = e ++ "\n" ++ writeClusterEntries total (idx + 1) (f :: t) := by
            simp [writeClusterEntries, hlt]
        _ = e ++ "\n" ++ sepByBlank (f :: t) := by rw [hrec]
        _ = sepByBlank (e :: f :: t) := by simp [sepByBlank]

/-- C9 counterexample: the claim asserts that the lowercase-keyword
invariant is checked at startup with a fatal failure if violated. The
startup registration code, the init() routine of the handlers package,
performs no such check and has no failure outcome: applied to a registry
state carrying the non-lowercase key "LAUNCH", startup completes
normally, merely adding the help entry. -/
theorem registryInit_no_lowercase_check :
    registryInit [("LAUNCH", launchCommand)] =
      [("LAUNCH", launchCommand), ("help", helpCommand)] := rfl

/-- C9 (amended): every keyword in the command registry is lowercase, a
static property of the fixed registry literal plus the init-added help
entry, so lower-casing the first token before lookup suffices for
case-insensitive keyword matching; no startup check enforces this. -/
theorem registry_keys_lowercase :
    ((commandRegistry.map Prod.fst).all fun k => toLowerStr k == k) = true ∧
    ∀ w : String, ∀ p ∈ commandRegistry, toLowerStr w = p.1 →
      commandRegistry.lookup (toLowerStr w) = some p.2 := by
  refine ⟨by decide, fun w p hp he => ?_⟩
  rw [he]
  exact lookup_mem_registry p hp

/-- Witness for C9: the case variant LAUNCH of the registered keyword
launch is matched after lower-casing. -/
theorem registry_keys_lowercase_witness :
    commandRegistry.lookup (toLowerStr "LAUNCH") = some launchCommand :=
  registry_keys_lowercase.2 "LAUNCH" ("launch", launchCommand) (by decide) (by decide)

/-- C10: after startup initialization the registry holds exactly the
keywords launch, list and help, in that literal order; the registry is
the result of applying the init routine to the map literal and nothing
else ever writes to it, so any help enumeration, over whatever iteration
order Go chooses for the map, lists exactly these three keywords. -/
theorem registry_exactly_three :
    commandRegistry.map Prod.fst = ["launch", "list", "help"] ∧
    commandRegistry = registryInit baseRegistry ∧
    ∀ order : List (String × Command), order.Perm commandRegistry →
      (order.map Prod.fst).Perm ["launch", "list", "help"] := by
  refine ⟨rfl, rfl, fun order h => ?_⟩
  have hm : (order.map Prod.fst).Perm (commandRegistry.map Prod.fst) := h.map Prod.fst
  simpa using hm

/-- Witness for C10: the identity enumeration of the registry lists
exactly the three keywords. -/
theorem registry_exactly_three_witness :
    (commandRegistry.map Prod.fst).Perm ["launch", "list", "help"] :=
  registry_exactly_three.2.2 commandRegistry (List.Perm.refl _)

/-- C8: a message marked bot-originated, or whose text tokenizes to zero
fields after trimming, produces no outbound post and no handler effect at
all: dispatch returns the empty effect in both cases, for every
environment. -/
theorem dispatch_silent (env : Env) (ev : MessageEvent) :
    (ev.botID ≠ "" → HandleMessageEvent env ev = ⟨[], []⟩) ∧
    (strFields (trimSpace ev.text) = [] → HandleMessageEvent env ev = ⟨[], []⟩) := by
  constructor
  · intro h
    simp [HandleMessageEvent, h]
  · intro hf
    by_cases hb : ev.botID = ""
    · simp [HandleMessageEvent, hb, hf]
    · simp [HandleMessageEvent, hb]

/-- Witness for C8: a bot-originated message and a whitespace-only
message are both discarded silently. -/
theorem dispatch_silent_witness :
    HandleMessageEvent env0 ⟨"B07", "launch k8s large", "U1", "C1"⟩ = ⟨[], []⟩ ∧
    HandleMessageEvent env0 ⟨"", "   ", "U1", "C1"⟩ = ⟨[], []⟩ :=
  ⟨(dispatch_silent env0 ⟨"B07", "launch k8s large", "U1", "C1"⟩).1 (by decide),
   (dispatch_silent env0 ⟨"", "   ", "U1", "C1"⟩).2 (by decide)⟩

/-- C1: on a non-bot message whose first whitespace-delimited token
lower-cases to a registered keyword, dispatch logs the received command
and runs exactly that keyword's handler on the remaining tokens in their
original case and order; when the lower-cased first token matches no
registered keyword, dispatch logs the unknown-command diagnostic and runs
the synthesized help handler. -/
theorem dispatch_routing (env : Env) (ev : MessageEvent) (w : String) (rest : List String)
    (hbot : ev.botID = "") (hf : strFields (trimSpace ev.text) = w :: rest) :
    (∀ p ∈ commandRegistry, toLowerStr w = p.1 →
      HandleMessageEvent env ev =
        ⟨(runHandler env ev rest p.2.Handler).posts,
         receivedLog p.1 ev.user ev.channel :: (runHandler env ev rest p.2.Handler).logs⟩) ∧
    (commandRegistry.lookup (toLowerStr w) = none →
      HandleMessageEvent env ev =
        ⟨(handleHelp env ev []).posts,
         unknownCmdLog (toLowerStr w) ev.user ev.channel :: (handleHelp env ev []).logs⟩) := by
  constructor
  · intro p hp he
    have hl : commandRegistry.lookup (toLowerStr w) = some p.2 := by
      rw [he]
      exact lookup_mem_registry p hp
    rw [he] at hl
    simp [HandleMessageEvent, hbot, hf, he, hl]
  · intro hl
    simp [HandleMessageEvent, hbot, hf, hl]

/-- Witness for C1: the message " LAUNCH K8S Large " routes to the launch
handler with args in original case, and the unknown keyword bogus routes
to help with the diagnostic logged. -/
theorem dispatch_routing_witness :
    HandleMessageEvent env0 ⟨"", " LAUNCH K8S Large ", "U1", "C1"⟩ =
      ⟨(runHandler env0 ⟨"", " LAUNCH K8S Large ", "U1", "C1"⟩ ["K8S", "Large"]
          launchCommand.Handler).posts,
       receivedLog "launch" "U1" "C1" ::
         (runHandler env0 ⟨"", " LAUNCH K8S Large ", "U1", "C1"⟩ ["K8S", "Large"]
           launchCommand.Handler).logs⟩ ∧
    HandleMessageEvent env0 ⟨"", "bogus", "U1", "C1"⟩ =
      ⟨(handleHelp env0 ⟨"", "bogus", "U1", "C1"⟩ []).posts,
       unknownCmdLog "bogus" "U1" "C1" ::
         (handleHelp env0 ⟨"", "bogus", "U1", "C1"⟩ []).logs⟩ :=
  ⟨(dispatch_routing env0 ⟨"", " LAUNCH K8S Large ", "U1", "C1"⟩ "LAUNCH" ["K8S", "Large"]
      rfl (by decide)).1 ("launch", launchCommand) (by decide) (by decide),
   (dispatch_routing env0 ⟨"", "bogus", "U1", "C1"⟩ "bogus" [] rfl (by decide)).2 (by decide)⟩

/-- C2: the launch handler validates in a fixed order where the first
failing check wins: with fewer than two arguments it replies with the
missing-arguments error carrying the full usage block (missingArgsMsg is
the error prefix appended with launchUsage); otherwise an unsupported
lower-cased first argument yields the type error naming that value, even
when the second argument is also invalid; otherwise a second argument
whose lower-casing is not a catalog key yields the size error naming that
value and listing the catalog entries with their CPU/RAM specs. Each
failure posts exactly the one error message and nothing is logged. -/
theorem launch_validation_order (env : Env) (ev : MessageEvent) (args : List String) :
    (args.length < 2 →
      HandleLaunch env ev args = ⟨[⟨ev.channel, missingArgsMsg⟩], []⟩) ∧
    (∀ a0 a1 rest, args = a0 :: a1 :: rest →
      isSupportedClusterType (toLowerStr a0) = false →
      HandleLaunch env ev args =
        ⟨[⟨ev.channel, unsupportedTypeMsg (toLowerStr a0)⟩], []⟩) ∧
    (∀ a0 a1 rest, args = a0 :: a1 :: rest →
      isSupportedClusterType (toLowerStr a0) = true →
      supportedSizes.lookup (toLowerStr a1) = none →
      HandleLaunch env ev args =
        ⟨[⟨ev.channel, invalidSizeMsg env.sizesOrder (toLowerStr a1)⟩], []⟩) := by
  refine ⟨fun h => ?_, fun a0 a1 rest he ht => ?_, fun a0 a1 rest he ht hs => ?_⟩
  · match args, h with
    | [], _ => simp [HandleLaunch, respondError]
    | [a0], _ => simp [HandleLaunch, respondError]
  · subst he
    simp [HandleLaunch, ht, respondError]
  · subst he
    simp [HandleLaunch, ht, hs, respondError]

/-- Witness for C2: one concrete input per validation branch, with the
second branch exercising an input whose size is also invalid. -/
theorem launch_validation_order_witness :
    HandleLaunch env0 evC ["k8s"] = ⟨[⟨"C1", missingArgsMsg⟩], []⟩ ∧
    HandleLaunch env0 evC ["Gke", "badsize"] =
      ⟨[⟨"C1", unsupportedTypeMsg "gke"⟩], []⟩ ∧
    HandleLaunch env0 evC ["K8S", "Huge"] =
      ⟨[⟨"C1", invalidSizeMsg supportedSizes "huge"⟩], []⟩ :=
  ⟨(launch_validation_order env0 evC ["k8s"]).1 (by decide),
   (launch_validation_order env0 evC ["Gke", "badsize"]).2.1 "Gke" "badsize" [] rfl (by decide),
   (launch_validation_order env0 evC ["K8S", "Huge"]).2.2 "K8S" "Huge" [] rfl (by decide) (by decide)⟩

/-- C3: with a supported lower-cased cluster type and a catalog size, in
any input letter-case, the launch handler posts exactly one confirmation
message embedding the lower-cased type, the lower-cased size, the sender
mention and the matched catalog CPU/RAM labels, and logs the launch;
arguments beyond index 1 are ignored and do not change the outcome; the
size large matches exactly the labels 16 CPUs and 64 GB RAM. -/
theorem launch_success (env : Env) (ev : MessageEvent) (a0 a1 : String)
    (rest : List String) (spec : SizeSpec)
    (ht : isSupportedClusterType (toLowerStr a0) = true)
    (hs : supportedSizes.lookup (toLowerStr a1) = some spec) :
    HandleLaunch env ev (a0 :: a1 :: rest) =
      ⟨[⟨ev.channel, launchConfirmMsg (toLowerStr a0) (toLowerStr a1) ev.user spec⟩],
       [launchLog ev.user (toLowerStr a0) (toLowerStr a1)]⟩ ∧
    HandleLaunch env ev (a0 :: a1 :: rest) = HandleLaunch env ev [a0, a1] ∧
    (toLowerStr a1 = "large" → spec = ⟨"16 CPUs", "64 GB RAM"⟩) := by
  refine ⟨?_, ?_, fun hl => ?_⟩
  · simp [HandleLaunch, ht, hs]
  · simp [HandleLaunch, ht, hs]
  · rw [hl] at hs
    have hlarge : supportedSizes.lookup "large" = some ⟨"16 CPUs", "64 GB RAM"⟩ := by decide
    rw [hlarge] at hs
    exact (Option.some_inj.mp hs).symm

/-- Witness for C3: launch K8S Large extra from sender U1 posts the one
confirmation with the normalized tokens and the large-size labels, the
trailing argument being ignored. -/
theorem launch_success_witness :
    HandleLaunch env0 evC ["K8S", "Large", "extra"] =
      ⟨[⟨"C1", launchConfirmMsg "k8s" "large" "U1" ⟨"16 CPUs", "64 GB RAM"⟩⟩],
       [launchLog "U1" "k8s" "large"]⟩ ∧
    HandleLaunch env0 evC ["K8S", "Large", "extra"] = HandleLaunch env0 evC ["K8S", "Large"] :=
  ⟨(launch_success env0 evC "K8S" "Large" ["extra"] ⟨"16 CPUs", "64 GB RAM"⟩
      (by decide) (by decide)).1,
   (launch_success env0 evC "K8S" "Large" ["extra"] ⟨"16 CPUs", "64 GB RAM"⟩
      (by decide) (by decide)).2.1⟩

/-- C4: when the client and both control-plane queries succeed, the list
handler replies with the fixed empty-state message when the combined
count is zero, and otherwise posts exactly one message holding one entry
block per resource, Kubernetes items first then OpenShift items, each
kind in control-plane order, each block carrying name, namespace, kind
label and the zero-padded YYYY-MM-DD HH:MM:SS timestamp, with one
separating newline between consecutive blocks and none after the last;
since every block ends in a newline this renders as a single blank line
between entries. The number of entry blocks equals the total count. -/
theorem list_formatting (env : Env) (ev : MessageEvent) (args : List String)
    (ks os : List ClusterItem)
    (hc : env.clientRes = .ok ()) (hk : env.kindsRes = .ok ks) (ho : env.osRes = .ok os) :
    (ks.length + os.length = 0 →
      HandleList env ev args = ⟨[⟨ev.channel, emptyListMsg⟩], []⟩) ∧
    (1 ≤ ks.length + os.length →
      HandleList env ev args =
        ⟨[⟨ev.channel,
           listHeader (ks.length + os.length) ++
             sepByBlank (ks.map kindEntry ++ os.map openshiftEntry)⟩],
         [listSummaryLog (ks.length + os.length) ks.length os.length ev.user]⟩) ∧
    (ks.map kindEntry ++ os.map openshiftEntry).length = ks.length + os.length := by
  refine ⟨fun h0 => ?_, fun h1 => ?_, by simp⟩
  · simp [HandleList, hc, hk, ho, h0]
  · have hnz : ¬ (ks.length + os.length = 0) := by omega
    have hlen : (ks.map kindEntry ++ os.map openshiftEntry).length
        = ks.length + os.length := by simp
    have hne : ks.map kindEntry ++ os.map openshiftEntry ≠ [] := by
      intro hcon
      rw [hcon] at hlen
      simp at hlen
      omega
    have hw := writeClusterEntries_eq_sepByBlank
      (ks.map kindEntry ++ os.map openshiftEntry) 0 (ks.length + os.length)
      (by simp) hne
    simp [HandleList, hc, hk, ho, hnz, hw]

/-- Witness for C4: one Kind item and one Openshift item produce the
two-cluster header and the two entry blocks joined by one separating
newline. -/
theorem list_formatting_witness :
    HandleList envList evC [] =
      ⟨[⟨"C1", listHeader 2 ++ sepByBlank [kindEntry k1, openshiftEntry o1]⟩],
       [listSummaryLog 2 1 1 "U1"]⟩ :=
  (list_formatting envList evC [] [k1] [o1] rfl rfl rfl).2.1 (by decide)

/-- C5: whenever client construction fails, or either control-plane query
fails, the list handler posts exactly one error message and logs the
cause, and shows no partial listing: in particular when the Kind query
succeeded with any items and the Openshift query then failed, the reply
is the single fixed error text, independent of the items already
fetched. -/
theorem list_error_aborts (env : Env) (ev : MessageEvent) (args : List String) :
    (∀ e, env.clientRes = .error e →
      HandleList env ev args =
        ⟨[⟨ev.channel, "❌ Failed to connect to Kubernetes cluster"⟩],
         ["Error getting kubernetes client: " ++ e]⟩) ∧
    (∀ e, env.clientRes = .ok () → env.kindsRes = .error e →
      HandleList env ev args =
        ⟨[⟨ev.channel, "❌ Failed to retrieve cluster list"⟩],
         ["Error listing MAPT kind clusters: " ++ e]⟩) ∧
    (∀ e ks, env.clientRes = .ok () → env.kindsRes = .ok ks → env.osRes = .error e →
      HandleList env ev args =
        ⟨[⟨ev.channel, "❌ Failed to retrieve cluster list"⟩],
         ["Error listing MAPT openshift clusters: " ++ e]⟩) := by
  refine ⟨fun e hc => ?_, fun e hc hk => ?_, fun e ks hc hk ho => ?_⟩
  · simp [HandleList, hc, respondError]
  · simp [HandleList, hc, hk, respondError]
  · simp [HandleList, hc, hk, ho, respondError]

/-- Witness for C5: the Kind query succeeded with one item, the Openshift
query failed, and the reply is the single error post with no trace of the
fetched item. -/
theorem list_error_aborts_witness :
    HandleList envOsErr evC [] =
      ⟨[⟨"C1", "❌ Failed to retrieve cluster list"⟩],
       ["Error listing MAPT openshift clusters: connection refused"]⟩ :=
  (list_error_aborts envOsErr evC []).2.2 "connection refused" [k1] rfl rfl rfl

/-- When the control-plane client is constructible, the probe variant
posts exactly what the plain handler posts for every input: the discarded
list call and its logged error never change the reply. The claimed
equivalence therefore holds precisely on the client-available paths. -/
theorem launch_probe_agrees_when_client_ok (env : Env) (ev : MessageEvent)
    (args : List String) (h : env.clientRes = .ok ()) :
    HandleLaunchProbe env ev args = some (HandleLaunch env ev args).posts := by
  match args with
  | [] => simp [HandleLaunchProbe, HandleLaunch]
  | [a0] => simp [HandleLaunchProbe, HandleLaunch]
  | a0 :: a1 :: rest =>
    by_cases ht : isSupportedClusterType (toLowerStr a0)
    · cases hs : supportedSizes.lookup (toLowerStr a1) with
      | none => simp [HandleLaunchProbe, HandleLaunch, h, ht, hs]
      | some spec => simp [HandleLaunchProbe, HandleLaunch, h, ht, hs]
    · simp [HandleLaunchProbe, HandleLaunch, h, ht]

/-- C6: the probe-issuing launch variant is not observationally
equivalent to the plain one. On the input launch k8s large, in the
ordinary environment where GetKubernetesClient fails (no kubeconfig),
the probe variant logs the error, then dereferences the nil client it
received and panics before validating or replying, producing no outbound
post, while the plain variant posts the launch confirmation. -/
theorem launch_probe_diverges :
    HandleLaunchProbe envNoClient evC ["k8s", "large"] = none ∧
    (HandleLaunch envNoClient evC ["k8s", "large"]).posts =
      [⟨"C1", launchConfirmMsg "k8s" "large" "U1" ⟨"16 CPUs", "64 GB RAM"⟩⟩] := by
  constructor
  · decide
  · decide

/-- C7 counterexample: Go randomizes map iteration order, so any
permutation of the catalog entries is an admissible enumeration for one
invocation of formatSupportedSizes; two invocations need not use the
same one. The literal order and its reverse, both admissible, yield
different size-error reply texts for the same invalid-size input, so two
invocations of the handler on the same input are not guaranteed
identical replies. -/
theorem sizeError_order_dependent :
    supportedSizes.reverse.Perm supportedSizes ∧
    HandleLaunch env0 evC ["k8s", "huge"] ≠ HandleLaunch envRevSizes evC ["k8s", "huge"] := by
  constructor
  · decide
  · decide

/-- C7 (amended): the size-error reply lists all three valid sizes with
their CPU/RAM specs, one bullet line per catalog entry in the enumeration
order of that invocation; the reply text is deterministic once the
enumeration order is fixed, the handler output depending on the
environment only through that order, but Go map iteration randomization
means the order itself is not fixed across invocations. -/
theorem sizeError_deterministic_given_order (env env2 : Env) (ev : MessageEvent)
    (args : List String) (h : env.sizesOrder = env2.sizesOrder) :
    HandleLaunch env ev args = HandleLaunch env2 ev args ∧
    ∀ order : List (String × SizeSpec), order.Perm supportedSizes →
      (order.map sizeLine).Perm (supportedSizes.map sizeLine) ∧
      formatSupportedSizes order = String.join (order.map sizeLine) := by
  refine ⟨?_, fun order hp => ⟨hp.map sizeLine, rfl⟩⟩
  simp only [HandleLaunch, invalidSizeMsg, h]

/-- Witness for C7: two environments sharing the literal enumeration
order but differing elsewhere produce the identical size-error reply,
and the literal order lists the three catalog lines. -/
theorem sizeError_deterministic_given_order_witness :
    HandleLaunch env0 evC ["k8s", "huge"] = HandleLaunch env0b evC ["k8s", "huge"] ∧
    (supportedSizes.map sizeLine).Perm (supportedSizes.map sizeLine) :=
  ⟨(sizeError_deterministic_given_order env0 env0b evC ["k8s", "huge"] rfl).1,
   ((sizeError_deterministic_given_order env0 env0b evC ["k8s", "huge"] rfl).2
      supportedSizes (List.Perm.refl _)).1⟩

end Spoticus
